import Mathlib

/-!
# Formal model of the `gdacs` API client (`gdacs/api.py`)

A shallow embedding of the GDACS API client library.  Python values that may
be `None` are modelled as `Option`; HTTP traffic is modelled by passing in the
response the server would give and returning, next to the result, the list of
requests the operation issued.  Python exceptions become an explicit error
type, with the exception *class* kept separate from the message so that
"error kind" (the class a caller can `except` on) is expressible.
-/

namespace Gdacs

/-- The Python exceptions the client can raise: `GDACSAPIError` (from
`gdacs.utils`), built-in `ValueError`, and built-in `TypeError`. -/
inductive PyError where
  | gdacsApiError (msg : String)
  | valueError (msg : String)
  | typeError (msg : String)
deriving DecidableEq, Repr

/-- The exception class of an error — what a Python caller can branch on with
`except`.  Two errors of the same class with different messages are not
distinguishable by exception handling. -/
inductive ErrClass where
  | gdacsApiErrorClass
  | valueErrorClass
  | typeErrorClass
deriving DecidableEq, Repr

/-- The class of a raised error. -/
def PyError.cls : PyError → ErrClass
  | .gdacsApiError _ => .gdacsApiErrorClass
  | .valueError _ => .valueErrorClass
  | .typeError _ => .typeErrorClass

/-- A feature of the GeoJSON feed; the client only ever reads
`event['properties']['eventtype']`, so only that property is modelled. -/
structure Feature where
  eventtype : String
deriving DecidableEq, Repr

/-- Modelled from the spec: the `GeoJSON` schema class of `gdacs.schemas`
(not under `src/`) — a feature-collection container constructed as
`GeoJSON(features=...)`. -/
structure GeoJSON where
  features : List Feature
deriving DecidableEq, Repr

/-- A query-parameter value (Python `str` or `int`). -/
inductive PVal where
  | s (v : String)
  | i (v : Int)
deriving DecidableEq, Repr

/-- An outbound HTTP GET request: URL plus query parameters.  A parameter
mapped to `none` is a Python `None` value handed to `requests`, which drops
it from the query string. -/
structure Request where
  url : String
  params : List (String × Option PVal)
deriving DecidableEq, Repr

/-- Lookup of a query parameter actually carried by a request. -/
def Request.param (r : Request) (k : String) : Option PVal :=
  (r.params.find? (fun kv => kv.1 == k)).bind (fun kv => kv.2)

/-- The HTTP response the server answers with: status code and the
`features` member of the JSON body. -/
structure HttpResponse where
  status_code : Nat
  features : List Feature
deriving DecidableEq, Repr

/-! ## Constants of `gdacs/api.py` -/

def CACHE_TTL : Nat := 300

def EVENT_TYPES : List (Option String) :=
  [none, some "TC", some "EQ", some "FL", some "VO", some "DR", some "WF"]

def DATA_FORMATS : List (Option String) :=
  [none, some "xml", some "geojson", some "shp"]

def ALERT_LEVELS : List (Option String) :=
  [none, some "green", some "orange", some "red"]

def BASE_URL : String := "https://www.gdacs.org/datareport/resources"

def API_BASE_URL : String := "https://www.gdacs.org/gdacsapi"

def LATEST_EVENTS_URL : String := API_BASE_URL ++ "/api/events/geteventlist/latest"

def LATEST_EVENTS_URL_4APP : String := API_BASE_URL ++ "/api/events/geteventlist/EVENTS4APP"

def EVENTS_BY_AREA_URL : String := API_BASE_URL ++ "/api/events/geteventlist/eventsbyarea"

def EVENTS_DATA_URL : String := API_BASE_URL ++ "/api/events/geteventdata"

/-! ## Python primitives used by the code -/

/-- Rendering of an optional string inside a Python f-string:
`None` prints as the literal text `"None"`. -/
def pyStr : Option String → String
  | none => "None"
  | some s => s

/-- Python truthiness of an optional string: `None` and `""` are falsy. -/
def pyTruthy : Option String → Bool
  | none => false
  | some s => !s.data.isEmpty

/-- The whitespace characters stripped by Python `str.strip()`:
space and the ASCII control characters 9–13. -/
def isPySpace (c : Char) : Bool :=
  c = ' ' || (9 ≤ c.toNat && c.toNat ≤ 13)

/-- Python `s.strip()`: remove leading and trailing whitespace. -/
def pyStrip (s : String) : String :=
  ⟨((s.data.dropWhile isPySpace).reverse.dropWhile isPySpace).reverse⟩

/-- Python `s.split(sep)` for a one-character separator: splitting the empty
string yields `[""]`, and separators at the ends yield empty pieces. -/
def pySplitAux (sep : Char) : List Char → List Char → List (List Char)
  | [], acc => [acc.reverse]
  | c :: cs, acc =>
      if c = sep then acc.reverse :: pySplitAux sep cs []
      else pySplitAux sep cs (c :: acc)

/-- Python `s.split(sep)`, lifted to `String`. -/
def pySplit (s : String) (sep : Char) : List String :=
  (pySplitAux sep s.data []).map (fun l => ⟨l⟩)

/-- Python `s.replace(old, new)` for one-character pattern and
replacement. -/
def pyReplaceChar (s : String) (old new : Char) : String :=
  ⟨s.data.map (fun x => if x = old then new else x)⟩

/-- ASCII upper-casing of one character, as Python `str.upper()` does on the
ASCII range. -/
def pyUpperChar (c : Char) : Char :=
  if 'a' ≤ c && c ≤ 'z' then Char.ofNat (c.toNat - 32) else c

/-- Python `s.upper()` on ASCII text. -/
def pyUpper (s : String) : String :=
  ⟨s.data.map pyUpperChar⟩

/-- Python `s.startswith(p)`. -/
def pyStartsWith (s p : String) : Bool :=
  p.data.isPrefixOf s.data

/-- Python `s.endswith(p)`. -/
def pyEndsWith (s p : String) : Bool :=
  p.data.reverse.isPrefixOf s.data.reverse

/-- Python list slicing `xs[:limit]` with an optional, possibly negative,
integer bound: `None` keeps everything, a negative bound drops that many
elements from the end (clamped at the empty list). -/
def pySliceTo (xs : List α) : Option Int → List α
  | none => xs
  | some k => if 0 ≤ k then xs.take k.toNat else xs.take (xs.length - (-k).toNat)

/-- One step of `os.path.join`: an absolute component resets the path,
otherwise a `/` separator is inserted unless one is already there. -/
def pyJoinStep (acc p : String) : String :=
  if pyStartsWith p "/" then p
  else if acc.data.isEmpty || pyEndsWith acc "/" then acc ++ p
  else acc ++ "/" ++ p

/-- `os.path.join(first, *rest)` where the remaining components are Python
values that may be `None`; joining a `None` component raises `TypeError`. -/
def pyJoin (first : String) (rest : List (Option String)) : Except PyError String :=
  rest.foldl
    (fun acc p =>
      match acc, p with
      | .error e, _ => .error e
      | .ok _, none =>
          .error (.typeError "join() argument must be str, bytes, or os.PathLike object, not 'NoneType'")
      | .ok a, some s => .ok (pyJoinStep a s))
    (.ok first)

/-- A path component that joins straightforwardly: nonempty, holding no `/`
and no backslash. -/
def plainSeg (s : String) : Bool :=
  !s.data.isEmpty && !s.data.contains '/' && !s.data.contains '\\'

/-! ## `latest_events_4app` -/

/-- `GDACSAPIReader.latest_events_4app(event_type, limit)`: validates the
event type, issues one GET with no query parameters, and filters/limits the
returned features client-side.  The result is paired with the list of
requests issued. -/
def latest_events_4app (event_type : Option String) (limit : Option Int)
    (resp : HttpResponse) : Except PyError GeoJSON × List Request :=
  if event_type ∈ EVENT_TYPES then
    let req : Request := { url := LATEST_EVENTS_URL_4APP, params := [] }
    if resp.status_code ≠ 200 then
      (.error (.gdacsApiError "API Error: GDACS RSS feed can not be reached."), [req])
    else
      let events := resp.features.filter
        (fun event => decide (event_type ∈ [none, some event.eventtype]))
      (.ok { features := pySliceTo events limit }, [req])
  else
    (.error (.gdacsApiError "API Error: Used an invalid `event_type` parameter in request."), [])

/-! ## `latest_events` -/

/-- The validation loop over `event_list` in `latest_events`: when the
argument is truthy, split on commas, strip each element, and return the first
element missing from `EVENT_TYPES` (Python raises at the first bad one). -/
def eventListInvalid (event_list : Option String) : Option String :=
  if pyTruthy event_list then
    (pySplit (pyStr event_list) ',').map pyStrip
      |>.find? (fun et => !(EVENT_TYPES.contains (some et)))
  else
    none

/-- The `alert_level` check of `latest_events`:
`alert_level and alert_level not in ALERT_LEVELS`. -/
def alertLevelBad (alert_level : Option String) : Bool :=
  pyTruthy alert_level && !(ALERT_LEVELS.contains alert_level)

/-- Drop the parameters whose value is `None`
(`{k: v for k, v in params.items() if v is not None}`). -/
def stripNone (ps : List (String × Option PVal)) : List (String × Option PVal) :=
  ps.filter (fun kv => kv.2.isSome)

/-- `GDACSAPIReader.latest_events(...)`: validates `event_list` and
`alert_level`, strips unset parameters, issues one GET, and maps the
response (204 → empty collection, non-200 → upstream error). -/
def latest_events (event_list alert_level date_modified country : Option String)
    (severity page_size page_number : Option Int)
    (resp : HttpResponse) : Except PyError GeoJSON × List Request :=
  match eventListInvalid event_list with
  | some et =>
      (.error (.valueError ("API Error: Invalid event type '" ++ et ++ "' in event_list")), [])
  | none =>
    if alertLevelBad alert_level then
      (.error (.valueError
        ("API Error: Invalid alert level '" ++ pyStr alert_level ++ "' in alert_level")), [])
    else
      let params := stripNone
        [("eventlist", event_list.map PVal.s),
         ("alertlevel", alert_level.map PVal.s),
         ("datemodified", date_modified.map PVal.s),
         ("country", country.map PVal.s),
         ("severity", severity.map PVal.i),
         ("pagesize", page_size.map PVal.i),
         ("pagenumber", page_number.map PVal.i)]
      let req : Request := { url := LATEST_EVENTS_URL, params := params }
      if resp.status_code = 204 then
        (.ok { features := [] }, [req])
      else if resp.status_code ≠ 200 then
        (.error (.gdacsApiError "API Error: GDACS API can not be reached."), [req])
      else
        (.ok { features := resp.features }, [req])

/-! ## `get_events_by_area` and the WKT collaborator -/

/-- The exceptions `pygeoif.factories.from_wkt` raises: `AttributeError`
(non-string input such as `None` has no string methods), `TypeError`, and
`WKTParserError` for a string that does not parse — which pygeoif derives
from `AttributeError`. -/
inductive WktErr where
  | attributeError
  | typeError
  | wktParserError (s : String)
deriving DecidableEq, Repr

/-- Whether the exception is caught by
`except (AttributeError, TypeError)` — `WKTParserError` is, being an
`AttributeError` subclass in pygeoif. -/
def WktErr.isAttrOrType : WktErr → Bool
  | .attributeError => true
  | .typeError => true
  | .wktParserError _ => true

/-- The WKT geometry tags accepted at the front of a WKT string. -/
def WKT_KEYWORDS : List String :=
  ["POINT", "LINESTRING", "POLYGON", "MULTIPOINT", "MULTILINESTRING",
   "MULTIPOLYGON", "GEOMETRYCOLLECTION", "LINEARRING"]

/-- Modelled from the spec: syntactic validity of a WKT geometry string, as
decided by the external WKT parser (`pygeoif.factories.from_wkt`, not under
`src/`) — the trimmed upper-cased text must open with a geometry keyword and
carry a parenthesised coordinate body.  Empty strings are invalid. -/
def isValidWkt (s : String) : Bool :=
  let t := pyUpper (pyStrip s)
  WKT_KEYWORDS.any (fun k => pyStartsWith t k) && pyEndsWith t ")"

/-- Modelled from the spec: `pygeoif.factories.from_wkt` (the WKT geometry
parser collaborator, not under `src/`).  A `None` argument fails with
`AttributeError` when string methods are applied to it; a string that is not
syntactically valid WKT fails with `WKTParserError`. -/
def from_wkt : Option String → Except WktErr Unit
  | none => .error .attributeError
  | some s => if isValidWkt s then .ok () else .error (.wktParserError s)

/-- Message text of a WKT parser exception, as interpolated into
`f"API Error: {e}"`. -/
def WktErr.msg : WktErr → String
  | .attributeError => "'NoneType' object has no attribute 'upper'"
  | .typeError => "expected a string"
  | .wktParserError s => "Cannot parse " ++ s

/-- `GDACSAPIReader.get_events_by_area(geometry_area, days)`: validates the
WKT geometry via `from_wkt` (mapping `AttributeError`/`TypeError` to a
`ValueError` and anything else to `GDACSAPIError`), then issues one GET and
maps the response. -/
def get_events_by_area (geometry_area : Option String) (days : Option Int)
    (resp : HttpResponse) : Except PyError GeoJSON × List Request :=
  match from_wkt geometry_area with
  | .error e =>
      if e.isAttrOrType then
        (.error (.valueError
          ("API Error: Invalid geometry_area '" ++ pyStr geometry_area ++ "'")), [])
      else
        (.error (.gdacsApiError ("API Error: " ++ e.msg)), [])
  | .ok _ =>
      let req : Request :=
        { url := EVENTS_BY_AREA_URL,
          params := [("geometryArea", geometry_area.map PVal.s), ("days", days.map PVal.i)] }
      if resp.status_code = 204 then
        (.ok { features := [] }, [req])
      else if resp.status_code ≠ 200 then
        (.error (.gdacsApiError "API Error: GDACS API can not be reached."), [req])
      else
        (.ok { features := resp.features }, [req])

/-! ## `get_events_data` -/

/-- `GDACSAPIReader.get_events_data(event_id, event_type, source)`: validates
the event type, strips unset parameters, issues one GET; a 404 answer maps
to the "Event ID not found" error, any other non-200 to the generic
upstream error. -/
def get_events_data (event_id : Int) (event_type source : Option String)
    (resp : HttpResponse) : Except PyError GeoJSON × List Request :=
  if event_type ∈ EVENT_TYPES then
    let params := stripNone
      [("eventid", some (PVal.i event_id)),
       ("eventtype", event_type.map PVal.s),
       ("source", source.map PVal.s)]
    let req : Request := { url := EVENTS_DATA_URL, params := params }
    if resp.status_code = 404 then
      (.error (.gdacsApiError "API Error: Event ID not found."), [req])
    else if resp.status_code ≠ 200 then
      (.error (.gdacsApiError "API Error: GDACS API can not be reached."), [req])
    else
      (.ok { features := resp.features }, [req])
  else
    (.error (.gdacsApiError "API Error: Used an invalid `event_type` parameter in request."), [])

/-! ## `get_event` and its three format handlers -/

/-- What a `get_event` call can hand back, depending on the format handler:
a parsed GeoJSON document, a shapefile-download confirmation string, or a
parsed XML/CAP document.  The parsed documents are identified by the
resource path they were fetched from. -/
inductive EventResult where
  | geojsonDoc (path : String)
  | confirmation (s : String)
  | xmlDoc (path : String)
deriving DecidableEq, Repr

/-- The final path segment of a `/`-separated resource path
(Python `path.split('/')[-1]`). -/
def lastSegment (path : String) : String :=
  (pySplit path '/').getLastD path

/-- Modelled from the spec: `handle_geojson` of `gdacs.utils` (not under
`src/`) fetches the document at the given path and parses it as a feature
collection. -/
def handle_geojson (path : String) : EventResult × List Request :=
  (.geojsonDoc path, [{ url := path, params := [] }])

/-- Modelled from the spec: `download_shp` of `gdacs.utils` (not under
`src/`) downloads and extracts the archive at the given path and returns a
confirmation string naming the downloaded archive. -/
def download_shp (path : String) : EventResult × List Request :=
  (.confirmation ("Downloaded " ++ lastSegment path ++ " in directory."),
   [{ url := path, params := [] }])

/-- Modelled from the spec: `handle_xml` of `gdacs.utils` (not under `src/`)
fetches and parses the XML/CAP document at the given path. -/
def handle_xml (path : String) : EventResult × List Request :=
  (.xmlDoc path, [{ url := path, params := [] }])

/-- The file name interpolated by `__get_geojson_event`:
`f"geojson_{event_id}_{episode_id}.geojson"`. -/
def geojson_file_name (event_id : String) (episode_id : Option String) : String :=
  "geojson_" ++ event_id ++ "_" ++ pyStr episode_id ++ ".geojson"

/-- The file name interpolated by `__get_shp_event`:
`f"Shape_{event_id}_{episode_id}.zip"`. -/
def shp_file_name (event_id : String) (episode_id : Option String) : String :=
  "Shape_" ++ event_id ++ "_" ++ pyStr episode_id ++ ".zip"

/-- The file name chosen by `__get_xml_event`: `cap_{event_id}.xml` when the
CAP flag is set, `rss_{event_id}.xml` when the episode id is falsy, and
`rss_{event_id}_{episode_id}.xml` otherwise. -/
def xml_file_name (event_id : String) (episode_id : Option String)
    (cap_file : Bool) : String :=
  if cap_file then "cap_" ++ event_id ++ ".xml"
  else if !pyTruthy episode_id then "rss_" ++ event_id ++ ".xml"
  else "rss_" ++ event_id ++ "_" ++ pyStr episode_id ++ ".xml"

/-- `GDACSAPIReader.__get_geojson_event`: joins the base URL, event type,
event id and file name (with backslashes normalised to `/`) and delegates
to `handle_geojson`. -/
def get_geojson_event (event_type : Option String) (event_id : String)
    (episode_id : Option String) : Except PyError EventResult × List Request :=
  match pyJoin BASE_URL [event_type, some event_id,
      some (geojson_file_name event_id episode_id)] with
  | .error e => (.error e, [])
  | .ok p =>
      let geojson_path := pyReplaceChar p '\\' '/'
      let (r, reqs) := handle_geojson geojson_path
      (.ok r, reqs)

/-- `GDACSAPIReader.__get_shp_event`: joins the base URL, event type, event
id and file name (with backslashes normalised to `/`) and delegates to
`download_shp`. -/
def get_shp_event (event_type : Option String) (event_id : String)
    (episode_id : Option String) : Except PyError EventResult × List Request :=
  match pyJoin BASE_URL [event_type, some event_id,
      some (shp_file_name event_id episode_id)] with
  | .error e => (.error e, [])
  | .ok p =>
      let shp_path := pyReplaceChar p '\\' '/'
      let (r, reqs) := download_shp shp_path
      (.ok r, reqs)

/-- `GDACSAPIReader.__get_xml_event`: picks the XML file name, joins the
path and delegates to `handle_xml`. -/
def get_xml_event (event_type : Option String) (event_id : String)
    (episode_id : Option String) (cap_file : Bool) :
    Except PyError EventResult × List Request :=
  match pyJoin BASE_URL [event_type, some event_id,
      some (xml_file_name event_id episode_id cap_file)] with
  | .error e => (.error e, [])
  | .ok p =>
      let xml_path := pyReplaceChar p '\\' '/'
      let (r, reqs) := handle_xml xml_path
      (.ok r, reqs)

/-- `GDACSAPIReader.get_event(event_id, event_type, episode_id,
source_format, cap_file)`: validates event type and format against the
allow-lists, then dispatches to exactly one of the three handlers
(XML being the default). -/
def get_event (event_id : String) (event_type episode_id source_format : Option String)
    (cap_file : Bool) : Except PyError EventResult × List Request :=
  if event_type ∈ EVENT_TYPES then
    if source_format ∈ DATA_FORMATS then
      if source_format = some "geojson" then
        get_geojson_event event_type event_id episode_id
      else if source_format = some "shp" then
        get_shp_event event_type event_id episode_id
      else
        get_xml_event event_type event_id episode_id cap_file
    else
      (.error (.gdacsApiError "API Error: Used an invalid `data_format` parameter in request."), [])
  else
    (.error (.gdacsApiError "API Error: Used an invalid `event_type` parameter in request."), [])

/-! ## The TTL cache (`@cached(cache=TTLCache(maxsize=500, ttl=CACHE_TTL))`)

Modelled from the spec: the `cachetools` decorator is not under `src/`.
The cache is a per-operation key → value map with a per-entry expiry time
and least-recently-used eviction at capacity; a wrapped call computes (and
pays its network calls) only on a miss.  Entries are kept
most-recently-used first. -/

/-- Cache state: entries `(key, value, expiry)` ordered most-recently-used
first. -/
structure CacheState (κ ν : Type) where
  entries : List (κ × ν × Nat)

/-- Lookup honouring the TTL: an entry is visible only while `now` is
before its expiry time. -/
def cacheLookup [DecidableEq κ] (st : CacheState κ ν) (k : κ) (now : Nat) :
    Option ν :=
  match st.entries.find? (fun e => decide (e.1 = k)) with
  | some (_, v, exp) => if now < exp then some v else none
  | none => none

/-- Move the entry for `k` to the most-recently-used position. -/
def cacheTouch [DecidableEq κ] (st : CacheState κ ν) (k : κ) : CacheState κ ν :=
  match st.entries.find? (fun e => decide (e.1 = k)) with
  | some e => ⟨e :: st.entries.filter (fun x => decide (x.1 ≠ k))⟩
  | none => st

/-- Modelled from the spec: one call through the `cached` wrapper.  On a
live hit the cached value is returned with zero network calls; on a miss
the wrapped operation runs (paying its network calls), expired entries are
dropped, the fresh entry becomes most-recently-used, and the
least-recently-used entries beyond `maxsize` are evicted. -/
def cachedCall [DecidableEq κ] (maxsize ttl : Nat) (compute : κ → ν × Nat)
    (st : CacheState κ ν) (k : κ) (now : Nat) : ν × Nat × CacheState κ ν :=
  match cacheLookup st k now with
  | some v => (v, 0, cacheTouch st k)
  | none =>
      let (v, c) := compute k
      let live := st.entries.filter (fun e => decide (e.1 ≠ k) && decide (now < e.2.2))
      (v, c, ⟨((k, v, now + ttl) :: live).take maxsize⟩)

/-- A sequence of calls through the cache: returns the results, the total
number of network calls, and the final cache state. -/
def cachedRun [DecidableEq κ] (maxsize ttl : Nat) (compute : κ → ν × Nat) :
    CacheState κ ν → List (κ × Nat) → List ν × Nat × CacheState κ ν
  | st, [] => ([], 0, st)
  | st, (k, t) :: rest =>
      let (v, c, st') := cachedCall maxsize ttl compute st k t
      let (vs, cs, st'') := cachedRun maxsize ttl compute st' rest
      (v :: vs, c + cs, st'')

/-- `latest_events_4app` as a cached computation: argument tuple to result
plus the number of network calls of one uncached invocation. -/
def latest4appCompute (a : Option String × Option Int) :
    Except PyError GeoJSON × Nat :=
  ((latest_events_4app a.1 a.2 ⟨200, []⟩).1,
   (latest_events_4app a.1 a.2 ⟨200, []⟩).2.length)

/-! ## Helper lemmas -/

theorem isPrefixOf_singleton (c : Char) (l : List Char) :
    [c].isPrefixOf l = true ↔ l.head? = some c := by
  cases l with
  | nil => simp [List.isPrefixOf]
  | cons b bs =>
      show (c == b && [].isPrefixOf bs) = true ↔ _
      simp only [List.isPrefixOf, Bool.and_true, List.head?_cons, Option.some.injEq,
        beq_iff_eq]
      exact eq_comm

theorem pyStartsWith_slash (s : String) :
    pyStartsWith s "/" = true ↔ s.data.head? = some '/' := by
  simpa [pyStartsWith] using isPrefixOf_singleton '/' s.data

theorem pyEndsWith_slash (s : String) :
    pyEndsWith s "/" = true ↔ s.data.getLast? = some '/' := by
  simpa [pyEndsWith, List.head?_reverse] using
    isPrefixOf_singleton '/' s.data.reverse

theorem not_contains_head {l : List Char} {c : Char}
    (h : l.contains c = false) : l.head? ≠ some c := by
  cases l with
  | nil => simp
  | cons b bs =>
      intro hb
      have hbc : b = c := by simpa using hb
      subst hbc
      simp at h

theorem not_contains_getLast {l : List Char} {c : Char}
    (h : l.contains c = false) : l.getLast? ≠ some c := by
  intro hl
  have hmem : c ∈ l := by
    obtain ⟨hne, hx⟩ := List.mem_getLast?_eq_getLast (Option.mem_def.mpr hl)
    rw [hx]
    exact List.getLast_mem hne
  have hc : l.contains c = true := by simpa using hmem
  rw [h] at hc
  exact Bool.false_ne_true hc

theorem data_nonempty_of_plain {s : String} (h : plainSeg s = true) :
    s.data ≠ [] := by
  simp only [plainSeg, Bool.and_eq_true, Bool.not_eq_true'] at h
  intro hd
  rw [hd] at h
  simp [List.isEmpty] at h

theorem plain_no_slash {s : String} (h : plainSeg s = true) :
    s.data.contains '/' = false := by
  simp only [plainSeg, Bool.and_eq_true, Bool.not_eq_true'] at h
  exact h.1.2

theorem plain_no_backslash {s : String} (h : plainSeg s = true) :
    s.data.contains '\\' = false := by
  simp only [plainSeg, Bool.and_eq_true, Bool.not_eq_true'] at h
  exact h.2

theorem pyJoin_cons (first s : String) (rest : List (Option String)) :
    pyJoin first (some s :: rest) = pyJoin (pyJoinStep first s) rest := rfl

theorem pyJoin_nil (first : String) : pyJoin first [] = .ok first := rfl

theorem pyJoinStep_eq (acc p : String) (h1 : p.data.head? ≠ some '/')
    (h2 : acc.data ≠ []) (h3 : acc.data.getLast? ≠ some '/') :
    pyJoinStep acc p = acc ++ "/" ++ p := by
  unfold pyJoinStep
  have hs : ¬(pyStartsWith p "/" = true) := by
    rw [pyStartsWith_slash]; exact h1
  have he : ¬(pyEndsWith acc "/" = true) := by
    rw [pyEndsWith_slash]; exact h3
  simp [hs, he, h2, List.isEmpty_iff]

theorem data_append_custom (a b : String) : (a ++ b).data = a.data ++ b.data :=
  String.data_append a b

theorem map_no_backslash (l : List Char) (h : l.contains '\\' = false) :
    l.map (fun x => if x = '\\' then '/' else x) = l := by
  induction l with
  | nil => rfl
  | cons c cs ih =>
      have hc : ¬(c = '\\') := by
        intro hc
        subst hc
        simp at h
      have hcs : cs.contains '\\' = false := by
        simp at h
        simpa using h.2
      simp [hc, ih hcs]

theorem pyReplaceChar_id (s : String) (h : s.data.contains '\\' = false) :
    pyReplaceChar s '\\' '/' = s := by
  rw [String.ext_iff]
  simpa [pyReplaceChar] using map_no_backslash s.data h

theorem contains_append_false (l₁ l₂ : List Char) (c : Char)
    (h₁ : l₁.contains c = false) (h₂ : l₂.contains c = false) :
    (l₁ ++ l₂).contains c = false := by
  induction l₁ with
  | nil => simpa using h₂
  | cons d ds ih =>
      rw [List.cons_append, List.contains_cons]
      rw [List.contains_cons] at h₁
      rcases Bool.or_eq_false_iff.mp h₁ with ⟨ha, hb⟩
      rw [ha, ih hb]
      rfl

theorem pyJoin_three (base c1 c2 c3 : String)
    (hb : base.data ≠ []) (hbl : base.data.getLast? ≠ some '/')
    (h1 : c1.data.head? ≠ some '/') (h1n : c1.data ≠ [])
    (h1l : c1.data.getLast? ≠ some '/')
    (h2 : c2.data.head? ≠ some '/') (h2n : c2.data ≠ [])
    (h2l : c2.data.getLast? ≠ some '/')
    (h3 : c3.data.head? ≠ some '/') :
    pyJoin base [some c1, some c2, some c3] =
      .ok (base ++ "/" ++ c1 ++ "/" ++ c2 ++ "/" ++ c3) := by
  rw [pyJoin_cons, pyJoin_cons, pyJoin_cons, pyJoin_nil]
  rw [pyJoinStep_eq base c1 h1 hb hbl]
  have e1 : (base ++ "/" ++ c1).data ≠ [] := by
    rw [data_append_custom]
    intro hx
    exact h1n (List.append_eq_nil.mp hx).2
  have e1l : (base ++ "/" ++ c1).data.getLast? ≠ some '/' := by
    rw [data_append_custom, List.getLast?_append_of_ne_nil _ h1n]
    exact h1l
  rw [pyJoinStep_eq _ c2 h2 e1 e1l]
  have e2 : (base ++ "/" ++ c1 ++ "/" ++ c2).data ≠ [] := by
    rw [data_append_custom]
    intro hx
    exact h2n (List.append_eq_nil.mp hx).2
  have e2l : (base ++ "/" ++ c1 ++ "/" ++ c2).data.getLast? ≠ some '/' := by
    rw [data_append_custom, List.getLast?_append_of_ne_nil _ h2n]
    exact h2l
  rw [pyJoinStep_eq _ c3 h3 e2 e2l]

theorem shp_file_name_plain_facts (eid epid : String)
    (heid : plainSeg eid = true) (hepid : plainSeg epid = true) :
    (shp_file_name eid (some epid)).data.head? ≠ some '/' ∧
    (shp_file_name eid (some epid)).data.contains '\\' = false := by
  have hdata : (shp_file_name eid (some epid)).data =
      "Shape_".data ++ eid.data ++ "_".data ++ epid.data ++ ".zip".data := by
    simp [shp_file_name, pyStr, data_append_custom]
  constructor
  · rw [hdata]
    intro hx
    have : ("Shape_".data ++ eid.data ++ "_".data ++ epid.data ++ ".zip".data).head? =
        some 'S' := by
      rfl
    rw [hx] at this
    simp at this
  · rw [hdata]
    refine contains_append_false _ _ _ ?_ (by decide)
    refine contains_append_false _ _ _ ?_ (plain_no_backslash hepid)
    refine contains_append_false _ _ _ ?_ (by decide)
    exact contains_append_false _ _ _ (by decide) (plain_no_backslash heid)

/-- C7: the shapefile handler builds the resource path
`base/event_type/event_id/Shape_{event_id}_{episode_id}.zip` with
forward-slash separators, and
`get_event(event_type='TC', event_id='1000132', episode_id='8',
source_format='shp')` returns the confirmation string referencing
`Shape_1000132_8.zip`. -/
theorem C7_shp_path_and_confirmation (et eid epid : String)
    (het : plainSeg et = true) (heid : plainSeg eid = true)
    (hepid : plainSeg epid = true) :
    (get_shp_event (some et) eid (some epid)).2 =
      [{ url := BASE_URL ++ "/" ++ et ++ "/" ++ eid ++ "/" ++
           shp_file_name eid (some epid), params := [] }] ∧
    shp_file_name eid (some epid) = "Shape_" ++ eid ++ "_" ++ epid ++ ".zip" ∧
    get_event "1000132" (some "TC") (some "8") (some "shp") false =
      (.ok (.confirmation "Downloaded Shape_1000132_8.zip in directory."),
       [{ url := BASE_URL ++ "/TC/1000132/Shape_1000132_8.zip", params := [] }]) := by
  obtain ⟨hfh, hfb⟩ := shp_file_name_plain_facts eid epid heid hepid
  refine ⟨?_, ?_, by rfl⟩
  · have hjoin := pyJoin_three BASE_URL et eid (shp_file_name eid (some epid))
      (by decide) (by decide)
      (not_contains_head (plain_no_slash het)) (data_nonempty_of_plain het)
      (not_contains_getLast (plain_no_slash het))
      (not_contains_head (plain_no_slash heid)) (data_nonempty_of_plain heid)
      (not_contains_getLast (plain_no_slash heid))
      hfh
    have hrep : pyReplaceChar
        (BASE_URL ++ "/" ++ et ++ "/" ++ eid ++ "/" ++ shp_file_name eid (some epid))
        '\\' '/' =
        BASE_URL ++ "/" ++ et ++ "/" ++ eid ++ "/" ++ shp_file_name eid (some epid) := by
      apply pyReplaceChar_id
      simp only [data_append_custom]
      refine contains_append_false _ _ _ ?_ hfb
      refine contains_append_false _ _ _ ?_ (by decide)
      refine contains_append_false _ _ _ ?_ (plain_no_backslash heid)
      refine contains_append_false _ _ _ ?_ (by decide)
      exact contains_append_false _ _ _ (by decide) (plain_no_backslash het)
    unfold get_shp_event
    rw [hjoin]
    simp [download_shp, hrep]
  · simp [shp_file_name, pyStr, String.ext_iff, data_append_custom]

/-- C10: when `episode_id` is unset, the GeoJSON and shapefile handlers
still interpolate it into the file name, yielding names containing the
literal text `None`, while the XML handler omits the episode segment and
uses `rss_{event_id}.xml`. -/
theorem C10_none_episode_filenames (eid : String) :
    geojson_file_name eid none = "geojson_" ++ eid ++ "_None.geojson" ∧
    shp_file_name eid none = "Shape_" ++ eid ++ "_None.zip" ∧
    xml_file_name eid none false = "rss_" ++ eid ++ ".xml" ∧
    (get_geojson_event (some "TC") "1000132" none).2 =
      [{ url := BASE_URL ++ "/TC/1000132/geojson_1000132_None.geojson", params := [] }] ∧
    (get_shp_event (some "TC") "1000132" none).2 =
      [{ url := BASE_URL ++ "/TC/1000132/Shape_1000132_None.zip", params := [] }] ∧
    (get_xml_event (some "TC") "1000132" none false).2 =
      [{ url := BASE_URL ++ "/TC/1000132/rss_1000132.xml", params := [] }] := by
  refine ⟨?_, ?_, ?_, by rfl, by rfl, by rfl⟩
  · simp [geojson_file_name, pyStr, String.ext_iff, data_append_custom]
  · simp [shp_file_name, pyStr, String.ext_iff, data_append_custom]
  · simp [xml_file_name, pyTruthy]

/-- C7 witness: the theorem applied at the pinned test input. -/
theorem C7_shp_witness :
    get_event "1000132" (some "TC") (some "8") (some "shp") false =
      (.ok (.confirmation "Downloaded Shape_1000132_8.zip in directory."),
       [{ url := BASE_URL ++ "/TC/1000132/Shape_1000132_8.zip", params := [] }]) :=
  (C7_shp_path_and_confirmation "TC" "1000132" "8" (by decide) (by decide) (by decide)).2.2

/-- C9: `None` is a member of `EVENT_TYPES`, so `get_event` with an unset
event type passes the allow-list check and then fails inside path
construction with an uncaught `TypeError` from the path join — not the
library's `GDACSAPIError`. -/
theorem C9_unset_event_type_typeerror (eid : String) (epid sfmt : Option String)
    (cf : Bool) (m : String) (hf : sfmt ∈ DATA_FORMATS) :
    none ∈ EVENT_TYPES ∧
    (get_event eid none epid sfmt cf).1 =
      .error (.typeError
        "join() argument must be str, bytes, or os.PathLike object, not 'NoneType'") ∧
    (PyError.typeError
        "join() argument must be str, bytes, or os.PathLike object, not 'NoneType'").cls ≠
      (PyError.gdacsApiError m).cls := by
  refine ⟨by decide, ?_, by simp [PyError.cls]⟩
  fin_cases hf
  · rfl
  · rfl
  · rfl
  · rfl

/-- C9 witness: the theorem applied at a concrete call. -/
theorem C9_witness :
    none ∈ EVENT_TYPES ∧
    (get_event "1000132" none none none false).1 =
      .error (.typeError
        "join() argument must be str, bytes, or os.PathLike object, not 'NoneType'") ∧
    (PyError.typeError
        "join() argument must be str, bytes, or os.PathLike object, not 'NoneType'").cls ≠
      (PyError.gdacsApiError "API Error: GDACS API can not be reached.").cls :=
  C9_unset_event_type_typeerror "1000132" none none false
    "API Error: GDACS API can not be reached." (by decide)

/-- C3: `get_events_by_area` with a `None`, empty, or syntactically invalid
WKT geometry raises a `ValueError` (the caller-input kind) and issues no
network request. -/
theorem C3_invalid_wkt_caller_error (g : Option String) (days : Option Int)
    (resp : HttpResponse)
    (h : g = none ∨ ∃ s, g = some s ∧ isValidWkt s = false) :
    get_events_by_area g days resp =
      (.error (.valueError ("API Error: Invalid geometry_area '" ++ pyStr g ++ "'")), []) := by
  rcases h with rfl | ⟨s, rfl, hs⟩
  · rfl
  · unfold get_events_by_area from_wkt
    simp [hs, WktErr.isAttrOrType]

/-- C3 witness: the theorem applied at the empty WKT string. -/
theorem C3_witness :
    get_events_by_area (some "") none ⟨200, []⟩ =
      (.error (.valueError "API Error: Invalid geometry_area ''"), []) :=
  C3_invalid_wkt_caller_error (some "") none ⟨200, []⟩ (Or.inr ⟨"", rfl, by decide⟩)

/-- C4 counterexample: the "Event ID not found" error raised on HTTP 404 and
the generic upstream error raised on other non-200 statuses carry the same
exception class `GDACSAPIError`; they differ only in message, so they are
not distinct error kinds a caller could `except` on. -/
theorem C4_counterexample :
    (get_events_data 1 (some "TC") none ⟨404, []⟩).1 =
      .error (.gdacsApiError "API Error: Event ID not found.") ∧
    (get_events_data 1 (some "TC") none ⟨500, []⟩).1 =
      .error (.gdacsApiError "API Error: GDACS API can not be reached.") ∧
    (PyError.gdacsApiError "API Error: Event ID not found.").cls =
      (PyError.gdacsApiError "API Error: GDACS API can not be reached.").cls :=
  ⟨rfl, rfl, rfl⟩

/-- C4 amended: on HTTP 404 `get_events_data` raises a `GDACSAPIError`
whose message "API Error: Event ID not found." differs from the generic
upstream message, but the exception class is the same `GDACSAPIError`. -/
theorem C4_amended_404_message (eid : Int) (et src : Option String)
    (resp : HttpResponse) (het : et ∈ EVENT_TYPES)
    (h404 : resp.status_code = 404) :
    (get_events_data eid et src resp).1 =
      .error (.gdacsApiError "API Error: Event ID not found.") ∧
    "API Error: Event ID not found." ≠ "API Error: GDACS API can not be reached." := by
  refine ⟨?_, by decide⟩
  unfold get_events_data
  simp [het, h404]

/-- C4 witness: the amended theorem applied at a concrete 404 response. -/
theorem C4_amended_witness :
    (get_events_data 1 (some "TC") none ⟨404, []⟩).1 =
      .error (.gdacsApiError "API Error: Event ID not found.") ∧
    "API Error: Event ID not found." ≠ "API Error: GDACS API can not be reached." :=
  C4_amended_404_message 1 (some "TC") none ⟨404, []⟩ (by decide) rfl

/-- C1 counterexample: `latest_events_4app` rejects an invalid event type
with a `GDACSAPIError` — the very same exception class it raises for an
upstream failure — so the caller-input error is not of a kind distinct from
the upstream-failure kind. -/
theorem C1_counterexample :
    (latest_events_4app (some "XX") none ⟨200, []⟩).1 =
      .error (.gdacsApiError "API Error: Used an invalid `event_type` parameter in request.") ∧
    (latest_events_4app none none ⟨500, []⟩).1 =
      .error (.gdacsApiError "API Error: GDACS RSS feed can not be reached.") ∧
    (PyError.gdacsApiError "API Error: Used an invalid `event_type` parameter in request.").cls =
      (PyError.gdacsApiError "API Error: GDACS RSS feed can not be reached.").cls :=
  ⟨rfl, rfl, rfl⟩

/-- C1 amended: every operation accepting an event type rejects an event
type outside the allow-list before any network call, but only
`latest_events` raises a distinct caller-input kind (`ValueError`);
`latest_events_4app`, `get_events_data` and `get_event` raise
`GDACSAPIError`, the same exception class used for upstream failures. -/
theorem C1_amended_invalid_event_type (et : Option String) (lim : Option Int)
    (resp resp2 : HttpResponse) (eid : Int) (src : Option String)
    (geid : String) (gepid gsf : Option String) (gcf : Bool)
    (el al dm co : Option String) (sv ps pn : Option Int) (bad : String)
    (h : et ∉ EVENT_TYPES) (hel : eventListInvalid el = some bad) :
    latest_events_4app et lim resp =
      (.error (.gdacsApiError "API Error: Used an invalid `event_type` parameter in request."),
       []) ∧
    get_events_data eid et src resp =
      (.error (.gdacsApiError "API Error: Used an invalid `event_type` parameter in request."),
       []) ∧
    get_event geid et gepid gsf gcf =
      (.error (.gdacsApiError "API Error: Used an invalid `event_type` parameter in request."),
       []) ∧
    latest_events el al dm co sv ps pn resp2 =
      (.error (.valueError ("API Error: Invalid event type '" ++ bad ++ "' in event_list")),
       []) ∧
    some bad ∉ EVENT_TYPES ∧
    (PyError.valueError ("API Error: Invalid event type '" ++ bad ++ "' in event_list")).cls ≠
      (PyError.gdacsApiError "API Error: Used an invalid `event_type` parameter in request.").cls := by
  have hbad : EVENT_TYPES.contains (some bad) = false := by
    unfold eventListInvalid at hel
    by_cases ht : pyTruthy el = true
    · rw [if_pos ht] at hel
      have hp := List.find?_some hel
      simpa using hp
    · rw [if_neg ht] at hel
      exact absurd hel (by simp)
  refine ⟨?_, ?_, ?_, ?_, ?_, by simp [PyError.cls]⟩
  · unfold latest_events_4app
    simp [h]
  · unfold get_events_data
    simp [h]
  · unfold get_event
    simp [h]
  · unfold latest_events
    rw [hel]
  · simpa using hbad

/-- C1 witness: the amended theorem applied at the invalid event type
`"XX"`. -/
theorem C1_amended_witness :
    latest_events_4app (some "XX") none ⟨200, []⟩ =
      (.error (.gdacsApiError "API Error: Used an invalid `event_type` parameter in request."),
       []) ∧
    get_events_data 1 (some "XX") none ⟨200, []⟩ =
      (.error (.gdacsApiError "API Error: Used an invalid `event_type` parameter in request."),
       []) ∧
    get_event "1000132" (some "XX") none none false =
      (.error (.gdacsApiError "API Error: Used an invalid `event_type` parameter in request."),
       []) ∧
    latest_events (some "XX") none none none none none none ⟨200, []⟩ =
      (.error (.valueError ("API Error: Invalid event type '" ++ "XX" ++ "' in event_list")),
       []) ∧
    some "XX" ∉ EVENT_TYPES ∧
    (PyError.valueError ("API Error: Invalid event type '" ++ "XX" ++ "' in event_list")).cls ≠
      (PyError.gdacsApiError "API Error: Used an invalid `event_type` parameter in request.").cls :=
  C1_amended_invalid_event_type (some "XX") none ⟨200, []⟩ ⟨200, []⟩ 1 none
    "1000132" none none false (some "XX") none none none none none none "XX"
    (by decide) (by rfl)

/-- C2 counterexample: `latest_events_4app` treats HTTP 204 as a failure —
it raises the upstream `GDACSAPIError` instead of returning an empty
feature collection. -/
theorem C2_counterexample :
    latest_events_4app none none ⟨204, []⟩ =
      (.error (.gdacsApiError "API Error: GDACS RSS feed can not be reached."),
       [{ url := LATEST_EVENTS_URL_4APP, params := [] }]) ∧
    (Except.error (PyError.gdacsApiError "API Error: GDACS RSS feed can not be reached.") :
        Except PyError GeoJSON) ≠ .ok { features := [] } :=
  ⟨rfl, by simp⟩

/-- C2 amended: `latest_events` and `get_events_by_area` yield an empty
feature collection on HTTP 204 and raise the upstream error on any other
non-200 status, while `latest_events_4app` raises the upstream error on any
non-200 status — including 204. -/
theorem C2_amended_status_policy (resp204 respO : HttpResponse)
    (el al dm co : Option String) (sv ps pn : Option Int)
    (g : String) (days lim : Option Int) (et : Option String)
    (h204 : resp204.status_code = 204)
    (hO200 : respO.status_code ≠ 200) (hO204 : respO.status_code ≠ 204)
    (hel : eventListInvalid el = none) (hal : alertLevelBad al = false)
    (hg : isValidWkt g = true) (het : et ∈ EVENT_TYPES) :
    (latest_events el al dm co sv ps pn resp204).1 = .ok { features := [] } ∧
    (get_events_by_area (some g) days resp204).1 = .ok { features := [] } ∧
    (latest_events_4app et lim resp204).1 =
      .error (.gdacsApiError "API Error: GDACS RSS feed can not be reached.") ∧
    (latest_events el al dm co sv ps pn respO).1 =
      .error (.gdacsApiError "API Error: GDACS API can not be reached.") ∧
    (get_events_by_area (some g) days respO).1 =
      .error (.gdacsApiError "API Error: GDACS API can not be reached.") ∧
    (latest_events_4app et lim respO).1 =
      .error (.gdacsApiError "API Error: GDACS RSS feed can not be reached.") := by
  refine ⟨?_, ?_, ?_, ?_, ?_, ?_⟩
  · unfold latest_events
    rw [hel]
    simp [hal, h204]
  · unfold get_events_by_area from_wkt
    simp [hg, h204]
  · unfold latest_events_4app
    simp [het, h204]
  · unfold latest_events
    rw [hel]
    simp [hal, hO200, hO204]
  · unfold get_events_by_area from_wkt
    simp [hg, hO200, hO204]
  · unfold latest_events_4app
    simp [het, hO200]

/-- C2 witness: the amended theorem applied at a 204 and a 500 response. -/
theorem C2_amended_witness :
    (latest_events none none none none none none none ⟨204, []⟩).1 =
      .ok { features := [] } ∧
    (get_events_by_area (some "POINT(0 0)") none ⟨204, []⟩).1 = .ok { features := [] } ∧
    (latest_events_4app none none ⟨204, []⟩).1 =
      .error (.gdacsApiError "API Error: GDACS RSS feed can not be reached.") ∧
    (latest_events none none none none none none none ⟨500, []⟩).1 =
      .error (.gdacsApiError "API Error: GDACS API can not be reached.") ∧
    (get_events_by_area (some "POINT(0 0)") none ⟨500, []⟩).1 =
      .error (.gdacsApiError "API Error: GDACS API can not be reached.") ∧
    (latest_events_4app none none ⟨500, []⟩).1 =
      .error (.gdacsApiError "API Error: GDACS RSS feed can not be reached.") :=
  C2_amended_status_policy ⟨204, []⟩ ⟨500, []⟩ none none none none none none none
    "POINT(0 0)" none none none rfl (by decide) (by decide) (by rfl) (by rfl)
    (by decide) (by decide)

/-- C5 counterexample: with the negative limit `-1` and a 200 response
carrying two features, `latest_events_4app` returns one feature — Python
slicing with a negative bound keeps all but the last elements — so the
result does not have "at most `k` features" for the integer `k = -1`. -/
theorem C5_counterexample :
    (latest_events_4app none (some (-1)) ⟨200, [⟨"TC"⟩, ⟨"EQ"⟩]⟩).1 =
      .ok { features := [⟨"TC"⟩] } ∧
    ¬(((GeoJSON.mk [⟨"TC"⟩]).features.length : Int) ≤ -1) :=
  ⟨rfl, by decide⟩

/-- C5 amended: for every nonnegative integer `k`, `latest_events_4app`
with `limit = k` returns at most `k` features, every returned feature's
event type equals the given `event_type` argument when one is supplied, and
the single GET request carries no query parameters (the filtering and
limiting are client-side). -/
theorem C5_amended_nonneg_limit (et : Option String) (k : Int)
    (resp : HttpResponse) (het : et ∈ EVENT_TYPES) (hk : 0 ≤ k)
    (h200 : resp.status_code = 200) :
    ∃ g, (latest_events_4app et (some k) resp).1 = .ok g ∧
      (g.features.length : Int) ≤ k ∧
      (∀ f ∈ g.features, ∀ t, et = some t → f.eventtype = t) ∧
      (latest_events_4app et (some k) resp).2 =
        [{ url := LATEST_EVENTS_URL_4APP, params := [] }] := by
  have hrun : latest_events_4app et (some k) resp =
      (.ok ⟨pySliceTo (resp.features.filter
          (fun event => decide (et ∈ [none, some event.eventtype]))) (some k)⟩,
        [{ url := LATEST_EVENTS_URL_4APP, params := [] }]) := by
    unfold latest_events_4app
    simp [het, h200]
  refine ⟨_, by rw [hrun], ?_, ?_, by rw [hrun]⟩
  · have hlen : (pySliceTo
        (resp.features.filter (fun event => decide (et ∈ [none, some event.eventtype])))
        (some k)).length ≤ k.toNat := by
      simp only [pySliceTo, if_pos hk]
      exact List.length_take_le _ _
    calc ((pySliceTo _ (some k)).length : Int)
        ≤ (k.toNat : Int) := by exact_mod_cast hlen
      _ = k := Int.toNat_of_nonneg hk
  · intro f hf t hett
    subst hett
    have hf' : f ∈ (resp.features.filter
        (fun event => decide (some t ∈ [none, some event.eventtype]))).take k.toNat := by
      simpa [pySliceTo, hk] using hf
    have hxs : f ∈ resp.features.filter
        (fun event => decide (some t ∈ [none, some event.eventtype])) :=
      List.mem_of_mem_take hf'
    have hp := (List.mem_filter.mp hxs).2
    have hmem := of_decide_eq_true hp
    simp at hmem
    exact hmem.symm

/-- C5 witness: the amended theorem applied at a concrete filtered,
limited call. -/
theorem C5_amended_witness :
    ∃ g, (latest_events_4app (some "TC") (some 1)
        ⟨200, [⟨"EQ"⟩, ⟨"TC"⟩, ⟨"TC"⟩]⟩).1 = .ok g ∧
      (g.features.length : Int) ≤ 1 ∧
      (∀ f ∈ g.features, ∀ t, (some "TC" : Option String) = some t → f.eventtype = t) ∧
      (latest_events_4app (some "TC") (some 1) ⟨200, [⟨"EQ"⟩, ⟨"TC"⟩, ⟨"TC"⟩]⟩).2 =
        [{ url := LATEST_EVENTS_URL_4APP, params := [] }] :=
  C5_amended_nonneg_limit (some "TC") 1 ⟨200, [⟨"EQ"⟩, ⟨"TC"⟩, ⟨"TC"⟩]⟩
    (by decide) (by decide) rfl

theorem find?_stripNone (k : String) (ps : List (String × Option PVal)) :
    (stripNone ps).find? (fun kv => kv.1 == k) =
      ps.find? (fun kv => kv.1 == k && kv.2.isSome) := by
  induction ps with
  | nil => rfl
  | cons hd tl ih =>
      rcases hd with ⟨a, v⟩
      by_cases hs : v.isSome = true
      · by_cases hk : (a == k) = true
        · rw [stripNone, List.filter_cons_of_pos (by simpa using hs),
            List.find?_cons_of_pos _ (by simpa using hk),
            List.find?_cons_of_pos _ (by simp [hk, hs])]
        · rw [stripNone, List.filter_cons_of_pos (by simpa using hs),
            List.find?_cons_of_neg _ (by simpa using hk),
            List.find?_cons_of_neg _ (by simp [hk]), ← stripNone, ih]
      · rw [stripNone, List.filter_cons_of_neg (by simpa using hs),
          List.find?_cons_of_neg _ (by simp [hs]), ← stripNone, ih]

/-- C6: each of the seven query parameters of `latest_events` is optional
and is omitted from the issued GET request exactly when it is unset. -/
theorem C6_optional_params_stripped (el al dm co : Option String)
    (sv ps pn : Option Int) (resp : HttpResponse)
    (hel : eventListInvalid el = none) (hal : alertLevelBad al = false) :
    ∃ req, (latest_events el al dm co sv ps pn resp).2 = [req] ∧
      req.url = LATEST_EVENTS_URL ∧
      req.param "eventlist" = el.map PVal.s ∧
      req.param "alertlevel" = al.map PVal.s ∧
      req.param "datemodified" = dm.map PVal.s ∧
      req.param "country" = co.map PVal.s ∧
      req.param "severity" = sv.map PVal.i ∧
      req.param "pagesize" = ps.map PVal.i ∧
      req.param "pagenumber" = pn.map PVal.i := by
  refine ⟨⟨LATEST_EVENTS_URL, stripNone
      [("eventlist", el.map PVal.s), ("alertlevel", al.map PVal.s),
       ("datemodified", dm.map PVal.s), ("country", co.map PVal.s),
       ("severity", sv.map PVal.i), ("pagesize", ps.map PVal.i),
       ("pagenumber", pn.map PVal.i)]⟩, ?_, rfl, ?_, ?_, ?_, ?_, ?_, ?_, ?_⟩
  · unfold latest_events
    rw [hel]
    by_cases h4 : resp.status_code = 204
    · simp [hal, h4]
    · by_cases h0 : resp.status_code = 200
      · simp [hal, h4, h0]
      · simp [hal, h4, h0]
  · simp only [Request.param, find?_stripNone]
    cases el <;> rfl
  · simp only [Request.param, find?_stripNone]
    cases al <;> rfl
  · simp only [Request.param, find?_stripNone]
    cases dm <;> rfl
  · simp only [Request.param, find?_stripNone]
    cases co <;> rfl
  · simp only [Request.param, find?_stripNone]
    cases sv <;> rfl
  · simp only [Request.param, find?_stripNone]
    cases ps <;> rfl
  · simp only [Request.param, find?_stripNone]
    cases pn <;> rfl

/-- C6 witness: the theorem applied at a call with a mix of set and unset
parameters. -/
theorem C6_witness :
    ∃ req, (latest_events (some "TC") none none (some "USA") none (some 100)
        (some 1) ⟨200, []⟩).2 = [req] ∧
      req.url = LATEST_EVENTS_URL ∧
      req.param "eventlist" = (some "TC").map PVal.s ∧
      req.param "alertlevel" = (none : Option String).map PVal.s ∧
      req.param "datemodified" = (none : Option String).map PVal.s ∧
      req.param "country" = (some "USA").map PVal.s ∧
      req.param "severity" = (none : Option Int).map PVal.i ∧
      req.param "pagesize" = (some (100 : Int)).map PVal.i ∧
      req.param "pagenumber" = (some (1 : Int)).map PVal.i :=
  C6_optional_params_stripped (some "TC") none none (some "USA") none (some 100)
    (some 1) ⟨200, []⟩ (by rfl) (by rfl)

/-- C8: with the cache parameters of the client (capacity 500, TTL
`CACHE_TTL`), two calls with the identical argument tuple inside the TTL
window cost exactly one network call and return the same result, while a
second call with a different argument tuple costs a second network call. -/
theorem C8_ttl_cache_key_sensitivity {κ ν : Type} [DecidableEq κ]
    (compute : κ → ν × Nat) (k k' : κ) (t1 t2 : Nat)
    (h1 : (compute k).2 = 1) (h1' : (compute k').2 = 1)
    (_hle : t1 ≤ t2) (httl : t2 < t1 + CACHE_TTL) (hne : k ≠ k') :
    (cachedRun 500 CACHE_TTL compute ⟨[]⟩ [(k, t1), (k, t2)]).2.1 = 1 ∧
    (cachedRun 500 CACHE_TTL compute ⟨[]⟩ [(k, t1), (k, t2)]).1 =
      [(compute k).1, (compute k).1] ∧
    (cachedRun 500 CACHE_TTL compute ⟨[]⟩ [(k, t1), (k', t2)]).2.1 = 2 := by
  have htake : ([(k, (compute k).1, t1 + CACHE_TTL)] :
      List (κ × ν × Nat)).take 500 = [(k, (compute k).1, t1 + CACHE_TTL)] :=
    List.take_of_length_le (by simp)
  have s1 : cachedCall 500 CACHE_TTL compute ⟨[]⟩ k t1 =
      ((compute k).1, (compute k).2, ⟨[(k, (compute k).1, t1 + CACHE_TTL)]⟩) := by
    unfold cachedCall cacheLookup
    simp [htake]
  have s2 : cachedCall 500 CACHE_TTL compute
      ⟨[(k, (compute k).1, t1 + CACHE_TTL)]⟩ k t2 =
      ((compute k).1, 0,
        cacheTouch ⟨[(k, (compute k).1, t1 + CACHE_TTL)]⟩ k) := by
    unfold cachedCall cacheLookup
    simp [httl]
  have s2' : (cachedCall 500 CACHE_TTL compute
      ⟨[(k, (compute k).1, t1 + CACHE_TTL)]⟩ k' t2).2.1 = (compute k').2 := by
    unfold cachedCall cacheLookup
    simp [hne]
  refine ⟨?_, ?_, ?_⟩
  · simp [cachedRun, s1, s2, h1]
  · simp [cachedRun, s1, s2]
  · simp [cachedRun, s1, h1, s2', h1']

/-- C8 witness: the theorem applied to `latest_events_4app` as the wrapped
operation, with an identical and then a differing argument tuple inside the
TTL window. -/
theorem C8_witness :
    (cachedRun 500 CACHE_TTL latest4appCompute ⟨[]⟩
        [((none, none), 0), ((none, none), 100)]).2.1 = 1 ∧
    (cachedRun 500 CACHE_TTL latest4appCompute ⟨[]⟩
        [((none, none), 0), ((none, none), 100)]).1 =
      [(latest4appCompute (none, none)).1, (latest4appCompute (none, none)).1] ∧
    (cachedRun 500 CACHE_TTL latest4appCompute ⟨[]⟩
        [((none, none), 0), ((some "TC", none), 100)]).2.1 = 2 :=
  C8_ttl_cache_key_sensitivity latest4appCompute (none, none) (some "TC", none)
    0 100 rfl rfl (by decide) (by decide) (by decide)

end Gdacs
